import Mathlib

/-!
Verification of the Flame Prophet frontend core: the historical-weather
normalization pipeline, the remote gateway's error normalization and retry
policy, and the shared location/result store, shallowly embedded from the
TypeScript source (`src/frontend/src/lib/api.ts`, the main page component,
and `src/frontend/src/contexts/LocationContext.tsx`).

JavaScript numbers are modelled as exact rationals (`ℚ`); a possibly-absent
field (`undefined` after optional chaining) is an `Option ℚ`.  JavaScript
truthiness on a number is `v ≠ 0`; on a string it is `s ≠ ""`.  The `||`
operator is modelled by `jsOrQ` / `jsOrS`.
-/

/-- JS truthiness of a possibly-undefined number: `undefined`, `0` are falsy. -/
def truthyQ : Option ℚ → Bool
  | none => false
  | some v => v != 0

/-- `a || b` on a possibly-undefined number `a` and a fallback `b`. -/
def jsOrQ : Option ℚ → ℚ → ℚ
  | none, b => b
  | some v, b => if v = 0 then b else v

/-- `a || b` on a possibly-undefined string `a` and a fallback `b`
(`undefined` and `""` are falsy). -/
def jsOrS : Option String → String → String
  | none, b => b
  | some s, b => if s = "" then b else s

/-- One record of `historical_data`, polymorphic over the two source shapes
(`HistoricalWeatherEntry` in `api.ts`): the legacy nested fields
(`temperature.temp`, `temperature.humidity`, `wind.speed`, `wind.direction`,
`pressure`) and the NASA POWER flat feature keys.  Every field other than the
date may be absent. -/
structure HistoricalWeatherEntry where
  date : String
  temperature_temp : Option ℚ
  temperature_humidity : Option ℚ
  wind_speed : Option ℚ
  wind_direction : Option ℚ
  pressure : Option ℚ
  T2M : Option ℚ
  T2M_MIN : Option ℚ
  T2M_MAX : Option ℚ
  RH2M : Option ℚ
  WS10M : Option ℚ
  WD10M : Option ℚ
  PS : Option ℚ
  PRECTOTCORR : Option ℚ
  ALLSKY_SFC_SW_DWN : Option ℚ
  ALLSKY_SFC_UVA : Option ℚ
deriving Repr, DecidableEq

/-- One entry of `LSTMPredictionRequest.data`: all ten features populated. -/
structure LSTMInputEntry where
  date : String
  T2M : ℚ
  T2M_MIN : ℚ
  T2M_MAX : ℚ
  RH2M : ℚ
  WS10M : ℚ
  WD10M : ℚ
  PS : ℚ
  PRECTOTCORR : ℚ
  ALLSKY_SFC_SW_DWN : ℚ
  ALLSKY_SFC_UVA : ℚ
deriving Repr, DecidableEq

/-- The middle operand of the `predictWeather` pressure chain:
`(item.PS && item.PS < 200 ? item.PS * 10 : item.PS)`. -/
def psKpaFix : Option ℚ → Option ℚ
  | none => none
  | some v => if v ≠ 0 ∧ v < 200 then some (v * 10) else some v

/-- The per-record mapper of `predictWeather` (main page, lines 309-321):

```
T2M: item.temperature?.temp || item.T2M || 25.0,
T2M_MIN: item.temperature?.temp ? item.temperature.temp - 3 : item.T2M_MIN || 22.0,
T2M_MAX: item.temperature?.temp ? item.temperature.temp + 3 : item.T2M_MAX || 30.0,
RH2M: item.temperature?.humidity || item.RH2M || 75.0,
WS10M: item.wind?.speed || item.WS10M || 2.0,
WD10M: item.wind?.direction || item.WD10M || 180.0,
PS: item.pressure || (item.PS && item.PS < 200 ? item.PS * 10 : item.PS) || 1013.0,
PRECTOTCORR: item.PRECTOTCORR || 0.0,
ALLSKY_SFC_SW_DWN: item.ALLSKY_SFC_SW_DWN || 200.0,
ALLSKY_SFC_UVA: item.ALLSKY_SFC_UVA || 30.0
``` -/
def lstmEntryPredictWeather (item : HistoricalWeatherEntry) : LSTMInputEntry :=
  ⟨item.date,
   jsOrQ item.temperature_temp (jsOrQ item.T2M 25),
   if truthyQ item.temperature_temp then item.temperature_temp.getD 0 - 3
     else jsOrQ item.T2M_MIN 22,
   if truthyQ item.temperature_temp then item.temperature_temp.getD 0 + 3
     else jsOrQ item.T2M_MAX 30,
   jsOrQ item.temperature_humidity (jsOrQ item.RH2M 75),
   jsOrQ item.wind_speed (jsOrQ item.WS10M 2),
   jsOrQ item.wind_direction (jsOrQ item.WD10M 180),
   jsOrQ item.pressure (jsOrQ (psKpaFix item.PS) 1013),
   jsOrQ item.PRECTOTCORR 0,
   jsOrQ item.ALLSKY_SFC_SW_DWN 200,
   jsOrQ item.ALLSKY_SFC_UVA 30⟩

/-- The per-record mapper of `handleClassify` (main page, lines 192-204).
Identical to `lstmEntryPredictWeather` except for the pressure field, which is
`item.pressure ? item.pressure * 10 : item.PS || 1013.0`. -/
def lstmEntryHandleClassify (item : HistoricalWeatherEntry) : LSTMInputEntry :=
  ⟨item.date,
   jsOrQ item.temperature_temp (jsOrQ item.T2M 25),
   if truthyQ item.temperature_temp then item.temperature_temp.getD 0 - 3
     else jsOrQ item.T2M_MIN 22,
   if truthyQ item.temperature_temp then item.temperature_temp.getD 0 + 3
     else jsOrQ item.T2M_MAX 30,
   jsOrQ item.temperature_humidity (jsOrQ item.RH2M 75),
   jsOrQ item.wind_speed (jsOrQ item.WS10M 2),
   jsOrQ item.wind_direction (jsOrQ item.WD10M 180),
   if truthyQ item.pressure then item.pressure.getD 0 * 10 else jsOrQ item.PS 1013,
   jsOrQ item.PRECTOTCORR 0,
   jsOrQ item.ALLSKY_SFC_SW_DWN 200,
   jsOrQ item.ALLSKY_SFC_UVA 30⟩

/-- Erase a numeric field whose value is exactly `0` (for comparing a
present-but-zero field with an absent one). -/
def zeroEraseOpt : Option ℚ → Option ℚ
  | none => none
  | some v => if v = 0 then none else some v

/-- Erase every present-but-zero numeric field of a record. -/
def zeroErase (e : HistoricalWeatherEntry) : HistoricalWeatherEntry :=
  ⟨e.date, zeroEraseOpt e.temperature_temp, zeroEraseOpt e.temperature_humidity,
   zeroEraseOpt e.wind_speed, zeroEraseOpt e.wind_direction, zeroEraseOpt e.pressure,
   zeroEraseOpt e.T2M, zeroEraseOpt e.T2M_MIN, zeroEraseOpt e.T2M_MAX,
   zeroEraseOpt e.RH2M, zeroEraseOpt e.WS10M, zeroEraseOpt e.WD10M,
   zeroEraseOpt e.PS, zeroEraseOpt e.PRECTOTCORR, zeroEraseOpt e.ALLSKY_SFC_SW_DWN,
   zeroEraseOpt e.ALLSKY_SFC_UVA⟩

/-- An all-absent record, for building concrete test records. -/
def emptyEntry : HistoricalWeatherEntry :=
  ⟨"2025-01-01", none, none, none, none, none, none, none, none, none, none,
   none, none, none, none, none⟩

/-- A concrete record carrying both source shapes at once, with different
values, so that the precedence between the shapes is observable. -/
def entryBothShapes : HistoricalWeatherEntry :=
  { emptyEntry with
      temperature_temp := some 11
      temperature_humidity := some 60
      wind_speed := some 5
      wind_direction := some 90
      pressure := some 950
      T2M := some 21
      RH2M := some 40
      WS10M := some 7
      WD10M := some 270
      PS := some 1000 }

/-- A concrete record with a truthy legacy temperature and flat min/max both
present. -/
def entryLegacyTempWithMinMax : HistoricalWeatherEntry :=
  { emptyEntry with
      temperature_temp := some 20
      T2M_MIN := some 10
      T2M_MAX := some 28 }

/-! ## Remote Gateway (`src/frontend/src/lib/api.ts`) -/

/-- The structured error body `{error, message}` (`ApiError` in `api.ts`), with
each field possibly absent in the parsed JSON. -/
structure ApiErrorBody where
  error : Option String
  message : Option String
deriving Repr, DecidableEq

/-- `ClassificationResponse` in `api.ts` (without the optional
`predicted_temperature`, which is attached later by `handleClassify`). -/
structure ClassificationResponse where
  is_wildfire : Bool
  confidence : ℚ
  classification : String
deriving Repr, DecidableEq

/-- `CurrentWeatherData` in `api.ts`, restricted to the numeric fields the
analysis pipeline reads. -/
structure CurrentWeatherData where
  temperature_current : ℚ
  temperature_humidity : ℚ
  wind_speed : ℚ
deriving Repr, DecidableEq

/-- `HistoricalWeatherData` in `api.ts`, restricted to the fields the analysis
pipeline reads. -/
structure HistoricalWeatherData where
  historical_data : List HistoricalWeatherEntry
  data_source : Option String
deriving Repr, DecidableEq

/-- `HealthResponse` in `api.ts`. -/
structure HealthResponse where
  status : String
  service : String
  version : String
deriving Repr, DecidableEq

/-- `LSTMHealthResponse` in `api.ts`. -/
structure LSTMHealthResponse where
  status : String
  model_loaded : Bool
  scaler_loaded : Bool
deriving Repr, DecidableEq

/-- `LSTMPredictionResponse` in `api.ts`, restricted to the fields the
analysis pipeline reads. -/
structure LSTMPredictionResponse where
  success : Bool
  predicted_temperature : ℚ
  error : Option String
deriving Repr, DecidableEq

/-- Outcome of one `fetch` as far as a gateway operation can observe it:
a parsed success payload; a non-ok HTTP status together with the parsed error
body (`none` when the body is absent or not valid JSON, i.e. when
`response.json()` rejects); a rejection with an `AbortError` (the operation's
own deadline fired, or the caller cancelled); or a rejection with some other
`Error`, carrying its message. -/
inductive FetchOutcome (α : Type) where
  | success : α → FetchOutcome α
  | httpError : Nat → Option ApiErrorBody → FetchOutcome α
  | abortError : FetchOutcome α
  | otherError : String → FetchOutcome α
deriving Repr

/-- The non-ok branch shared verbatim by every gateway operation:

```
const errorData: ApiError = await response.json().catch(() => ({
  error: 'Unknown error',
  message: 'An unexpected error occurred'
}));
throw new Error(errorData.message || errorData.error || `HTTP error! status: N`);
``` -/
def parseErrorBody (status : Nat) (body : Option ApiErrorBody) : String :=
  let errorData : ApiErrorBody :=
    match body with
    | some b => b
    | none => ⟨some "Unknown error", some "An unexpected error occurred"⟩
  jsOrS errorData.message (jsOrS errorData.error ("HTTP error! status: " ++ toString status))

/-- `classifyWildfireArea` (api.ts:210-266), fetch path: deadline 30s. -/
def classifyWildfireArea (out : FetchOutcome ClassificationResponse) :
    Except String ClassificationResponse :=
  match out with
  | .success d => .ok d
  | .httpError status body => .error (parseErrorBody status body)
  | .abortError => .error "Request timeout - classification took too long (>30s)"
  | .otherError m => .error m

/-- `getCurrentWeather` (api.ts:377-415): deadline 10s. -/
def getCurrentWeather (out : FetchOutcome CurrentWeatherData) :
    Except String CurrentWeatherData :=
  match out with
  | .success d => .ok d
  | .httpError status body => .error (parseErrorBody status body)
  | .abortError => .error "Request timeout - weather API took too long (>10s)"
  | .otherError m => .error m

/-- `getHistoricalWeather` (api.ts:420-458): deadline 15s. -/
def getHistoricalWeather (out : FetchOutcome HistoricalWeatherData) :
    Except String HistoricalWeatherData :=
  match out with
  | .success d => .ok d
  | .httpError status body => .error (parseErrorBody status body)
  | .abortError => .error "Request timeout - historical weather API took too long (>15s)"
  | .otherError m => .error m

/-- `getLSTMHealth` (api.ts:463-501): deadline 5s, no retry. -/
def getLSTMHealth (out : FetchOutcome LSTMHealthResponse) :
    Except String LSTMHealthResponse :=
  match out with
  | .success d => .ok d
  | .httpError status body => .error (parseErrorBody status body)
  | .abortError => .error "Request timeout - LSTM health check took too long (>5s)"
  | .otherError m => .error m

/-- `predictLSTMTemperature` (api.ts:506-545): deadline 30s. -/
def predictLSTMTemperature (out : FetchOutcome LSTMPredictionResponse) :
    Except String LSTMPredictionResponse :=
  match out with
  | .success d => .ok d
  | .httpError status body => .error (parseErrorBody status body)
  | .abortError => .error "Request timeout - LSTM prediction took too long (>30s)"
  | .otherError m => .error m

/-! ## `checkHealth` (api.ts:166-203): the only auto-retrying operation -/

/-- What one iteration of the `checkHealth` loop can observe: a parsed
healthy response, or any of the failures its `try` block can raise (an abort
at the 5s deadline, a thrown non-ok status, or another fetch error). -/
inductive HealthAttempt where
  | success : HealthResponse → HealthAttempt
  | abortFail : HealthAttempt
  | httpFail : Nat → HealthAttempt
  | otherFail : HealthAttempt
deriving Repr

/-- Does this attempt outcome land in the `catch` block? -/
def attemptFails : HealthAttempt → Bool
  | .success _ => false
  | _ => true

/-- Observable behaviour of one `checkHealth` invocation: its result, the
backoff delays it slept (in ms, in order), and how many fetches it issued. -/
structure CheckHealthRun where
  result : Except String HealthResponse
  delaysMs : List Nat
  fetchCount : Nat
deriving Repr

/-- The `for (let i = 0; i < retries; i++)` loop of `checkHealth`: attempt
`i`; on success return the data; on failure rethrow the generic message when
`i === retries - 1`, otherwise sleep `1000 * (i + 1)` ms and continue. -/
def checkHealthAux (att : Nat → HealthAttempt) (retries : Nat) (i : Nat) :
    CheckHealthRun :=
  if _h : i < retries then
    match att i with
    | .success d => ⟨.ok d, [], 1⟩
    | _ =>
      if i = retries - 1 then
        ⟨.error "Unable to connect to the prediction service", [], 1⟩
      else
        let rest := checkHealthAux att retries (i + 1)
        ⟨rest.result, 1000 * (i + 1) :: rest.delaysMs, rest.fetchCount + 1⟩
  else ⟨.error "Unable to connect to the prediction service", [], 0⟩
termination_by retries - i

/-- `checkHealth` with its default `retries = 3`. -/
def checkHealth (att : Nat → HealthAttempt) : CheckHealthRun :=
  checkHealthAux att 3 0

/-! ## Analysis runs (main page `handleClassify` / `predictWeather`) and the
Location Store result slot (`LocationContext.tsx`) -/

/-- `MapLocation` in `LocationContext.tsx`, restricted to the fields the
analysis pipeline reads. -/
structure MapLocation where
  name : String
  latitude : ℚ
  longitude : ℚ
deriving Repr, DecidableEq

/-- A network request issued during a run, with the payload the run hands to
it where a claim depends on it: `predict` carries the `data` array and the
optional `current_temp`. -/
inductive ApiCall where
  | currentWeather : ApiCall
  | classify : ApiCall
  | historicalWeather : Nat → ApiCall
  | predict : List LSTMInputEntry → Option ℚ → ApiCall
deriving Repr, DecidableEq

/-- The combined result `{...cnnResult, predicted_temperature}` committed by
`handleClassify` on success. -/
structure CombinedResult where
  cnn : ClassificationResponse
  predicted_temperature : ℚ
deriving Repr, DecidableEq

/-- The remote outcomes one `handleClassify` run is exposed to: whether the
screenshot capture succeeds, the HTTP status of the raw current-weather fetch,
and the fetch outcomes of the three gateway calls it makes. -/
structure ClassifyRunEnv where
  captureOk : Bool
  weatherStatus : Nat
  cnn : FetchOutcome ClassificationResponse
  hist : FetchOutcome HistoricalWeatherData
  lstm : FetchOutcome LSTMPredictionResponse

/-- Observable behaviour of one `handleClassify` run: the network calls it
issued, in order, and its outcome (the error shown on failure, or the
combined result it commits on success). -/
structure ClassifyRunTrace where
  calls : List ApiCall
  result : Except String CombinedResult
deriving Repr

/-- `handleClassify` (main page, lines 122-246).  Checks, in source order:
map element and zoom function present (else the "Map Not Ready" alert);
a selected location (else the "No Location Selected" alert).  Then it runs
the screenshot capture and the raw current-weather fetch in parallel
(`Promise.all`, so the fetch is issued even when capture fails), throws on a
non-ok weather status, classifies, fetches 14 days of history, maps each
record through `lstmEntryHandleClassify`, throws unless exactly 14 vectors
result, calls the forecast endpoint, throws when `success` is false, and
otherwise produces `{...cnnResult, predicted_temperature}`. -/
def handleClassifyRun (mapReady : Bool) (zoomReady : Bool) (loc : Option MapLocation)
    (env : ClassifyRunEnv) : ClassifyRunTrace :=
  if ¬ (mapReady ∧ zoomReady) then ⟨[], .error "Map Not Ready"⟩
  else
    match loc with
    | none => ⟨[], .error "No Location Selected"⟩
    | some _ =>
      if ¬ env.captureOk then ⟨[.currentWeather], .error "Failed to capture screenshot"⟩
      else if ¬ (200 ≤ env.weatherStatus ∧ env.weatherStatus < 300) then
        ⟨[.currentWeather], .error ("Weather API failed: " ++ toString env.weatherStatus)⟩
      else
        match classifyWildfireArea env.cnn with
        | .error m => ⟨[.currentWeather, .classify], .error m⟩
        | .ok cnnResult =>
          match getHistoricalWeather env.hist with
          | .error m => ⟨[.currentWeather, .classify, .historicalWeather 14], .error m⟩
          | .ok historicalData =>
            let lstmInputData := historicalData.historical_data.map lstmEntryHandleClassify
            if lstmInputData.length ≠ 14 then
              ⟨[.currentWeather, .classify, .historicalWeather 14],
               .error ("Expected 14 days of historical data, got "
                 ++ toString lstmInputData.length)⟩
            else
              match predictLSTMTemperature env.lstm with
              | .error m =>
                ⟨[.currentWeather, .classify, .historicalWeather 14,
                  .predict lstmInputData none], .error m⟩
              | .ok lstmResult =>
                if ¬ lstmResult.success then
                  ⟨[.currentWeather, .classify, .historicalWeather 14,
                    .predict lstmInputData none],
                   .error (jsOrS lstmResult.error "LSTM prediction failed")⟩
                else
                  ⟨[.currentWeather, .classify, .historicalWeather 14,
                    .predict lstmInputData none],
                   .ok ⟨cnnResult, lstmResult.predicted_temperature⟩⟩

/-- The remote outcomes one `predictWeather` run is exposed to. -/
structure PredictRunEnv where
  hist : FetchOutcome HistoricalWeatherData
  lstm : FetchOutcome LSTMPredictionResponse

/-- Observable behaviour of one `predictWeather` run. -/
structure PredictRunTrace where
  calls : List ApiCall
  result : Except String ℚ
deriving Repr

/-- `predictWeather` (main page, lines 280-393).  Checks current weather then
location; fetches 14 days of history, maps each record through
`lstmEntryPredictWeather`, throws unless exactly 14 vectors result, and calls
the forecast endpoint with the vectors and the current temperature. -/
def predictWeatherRun (currentWeather : Option CurrentWeatherData)
    (loc : Option MapLocation) (env : PredictRunEnv) : PredictRunTrace :=
  match currentWeather with
  | none => ⟨[], .error "No Weather Data"⟩
  | some cw =>
    match loc with
    | none => ⟨[], .error "No Location Selected"⟩
    | some _ =>
      match getHistoricalWeather env.hist with
      | .error m => ⟨[.historicalWeather 14], .error m⟩
      | .ok historicalData =>
        let lstmInputData := historicalData.historical_data.map lstmEntryPredictWeather
        if lstmInputData.length ≠ 14 then
          ⟨[.historicalWeather 14],
           .error ("Expected 14 days of historical data, got "
             ++ toString lstmInputData.length)⟩
        else
          match predictLSTMTemperature env.lstm with
          | .error m =>
            ⟨[.historicalWeather 14,
              .predict lstmInputData (some cw.temperature_current)], .error m⟩
          | .ok lstmResult =>
            if ¬ lstmResult.success then
              ⟨[.historicalWeather 14,
                .predict lstmInputData (some cw.temperature_current)],
               .error (jsOrS lstmResult.error "LSTM prediction failed")⟩
            else
              ⟨[.historicalWeather 14,
                .predict lstmInputData (some cw.temperature_current)],
               .ok lstmResult.predicted_temperature⟩

/-- The Location Store's result-slot setter (`LocationContext.tsx:55`,
`setClassificationResult` from `useState`): replaces the slot wholesale with
the new value, with no comparison against the previous value and no
run-identity check. -/
def setClassificationResult (_previous : Option CombinedResult)
    (next : Option CombinedResult) : Option CombinedResult :=
  next

/-- Effect of a finished `handleClassify` run on the store's result slot: a
successful run commits its combined result unconditionally (main page, line
232); a failed run only shows an alert and leaves the slot untouched. -/
def commitClassifyRun (slot : Option CombinedResult) (t : ClassifyRunTrace) :
    Option CombinedResult :=
  match t.result with
  | .ok r => setClassificationResult slot (some r)
  | .error _ => slot

/-- A concrete selected location (the spec's end-to-end scenario point). -/
def loc0 : MapLocation := ⟨"Jakarta", -6.2, 106.8⟩

/-- A concrete wildfire classification response. -/
def cnn0 : ClassificationResponse := ⟨true, 0.82, "wildfire"⟩

/-- A concrete safe classification response, distinct from `cnn0`. -/
def cnnAlt : ClassificationResponse := ⟨false, 0.6, "no_wildfire"⟩

/-- A concrete successful forecast response. -/
def lstm334 : LSTMPredictionResponse := ⟨true, 33.4, none⟩

/-- A second concrete successful forecast response. -/
def lstm300 : LSTMPredictionResponse := ⟨true, 30, none⟩

/-- A historical response with exactly 14 records. -/
def hist14 : HistoricalWeatherData := ⟨List.replicate 14 emptyEntry, some "nasa_power"⟩

/-- A historical response with only 9 records. -/
def hist9 : HistoricalWeatherData := ⟨List.replicate 9 emptyEntry, some "nasa_power"⟩

/-- A fully successful environment for a slow run R1. -/
def envR1 : ClassifyRunEnv := ⟨true, 200, .success cnn0, .success hist14, .success lstm334⟩

/-- A fully successful environment for a fast run R2, with a different
classification and forecast than `envR1`. -/
def envR2 : ClassifyRunEnv := ⟨true, 200, .success cnnAlt, .success hist14, .success lstm300⟩

/-- An environment whose historical response has only 9 records. -/
def env9 : ClassifyRunEnv := ⟨true, 200, .success cnn0, .success hist9, .success lstm334⟩

/-! ## Helper lemmas about the JS-value combinators -/

theorem jsOrQ_eq_getD_of_truthy (a : Option ℚ) (b : ℚ) (h : truthyQ a = true) :
    jsOrQ a b = a.getD 0 := by
  cases a with
  | none => simp [truthyQ] at h
  | some v =>
    simp only [truthyQ, bne_iff_ne, ne_eq, decide_eq_true_eq] at h
    simp [jsOrQ, h]

theorem truthyQ_some_eq_zero {v : ℚ} (h : truthyQ (some v) = false) : v = 0 := by
  simpa [truthyQ] using h

theorem jsOrQ_eq_of_not_truthy (a : Option ℚ) (b : ℚ) (h : truthyQ a = false) :
    jsOrQ a b = b := by
  cases a with
  | none => rfl
  | some v => simp [jsOrQ, truthyQ_some_eq_zero h]

theorem jsOrQ_zeroEraseOpt (a : Option ℚ) (b : ℚ) :
    jsOrQ (zeroEraseOpt a) b = jsOrQ a b := by
  cases a with
  | none => rfl
  | some v =>
    by_cases hv : v = 0 <;> simp [zeroEraseOpt, jsOrQ, hv]

theorem truthyQ_zeroEraseOpt (a : Option ℚ) : truthyQ (zeroEraseOpt a) = truthyQ a := by
  cases a with
  | none => rfl
  | some v =>
    by_cases hv : v = 0 <;> simp [zeroEraseOpt, truthyQ, hv]

theorem getD_zeroEraseOpt (a : Option ℚ) : (zeroEraseOpt a).getD 0 = a.getD 0 := by
  cases a with
  | none => rfl
  | some v =>
    by_cases hv : v = 0 <;> simp [zeroEraseOpt, hv]

theorem jsOrQ_psKpaFix_zeroEraseOpt (a : Option ℚ) (b : ℚ) :
    jsOrQ (psKpaFix (zeroEraseOpt a)) b = jsOrQ (psKpaFix a) b := by
  cases a with
  | none => rfl
  | some v =>
    by_cases hv : v = 0
    · simp [zeroEraseOpt, psKpaFix, jsOrQ, hv]
    · simp [zeroEraseOpt, psKpaFix, hv]

/-! ## Claims about the Historical Series Normalizer -/

/-- C2 counterexample: there is no single pressure rule across the call
sites.  At the `handleClassify` site a legacy pressure of 1013 (≥ 200,
already hPa, which the claim says is left unchanged) is multiplied by 10 to
10130; at the `predictWeather` site a legacy pressure of 101.3 (< 200, which
the claim says is multiplied by 10) is passed through unchanged. -/
theorem c2_counterexample :
    (lstmEntryHandleClassify { emptyEntry with pressure := some 1013 }).PS = 10130 ∧
    (10130 : ℚ) ≠ 1013 ∧
    (lstmEntryPredictWeather { emptyEntry with pressure := some (101.3 : ℚ) }).PS
      = (101.3 : ℚ) ∧
    (101.3 : ℚ) ≠ 1013 := by
  refine ⟨?_, by norm_num, ?_, by norm_num⟩
  · norm_num [lstmEntryHandleClassify, emptyEntry, truthyQ, jsOrQ]
  · norm_num [lstmEntryPredictWeather, emptyEntry, truthyQ, jsOrQ]

/-- C2 amended: the two call sites use different pressure rules.  At the
`predictWeather` site a truthy legacy `pressure` is used unchanged, and only
the flat `PS` is subject to the `< 200 ⇒ ×10` heuristic; at the
`handleClassify` site a truthy legacy `pressure` is multiplied by 10
unconditionally and the flat `PS` is used unchanged; both sites default to
1013 when every pressure-like field is absent or zero. -/
theorem c2_pressure_site_rules :
    (∀ e : HistoricalWeatherEntry, ∀ v : ℚ, e.pressure = some v → v ≠ 0 →
      (lstmEntryPredictWeather e).PS = v ∧ (lstmEntryHandleClassify e).PS = v * 10) ∧
    (∀ e : HistoricalWeatherEntry, ∀ v : ℚ, truthyQ e.pressure = false →
      e.PS = some v → v ≠ 0 → v < 200 →
      (lstmEntryPredictWeather e).PS = v * 10 ∧ (lstmEntryHandleClassify e).PS = v) ∧
    (∀ e : HistoricalWeatherEntry, ∀ v : ℚ, truthyQ e.pressure = false →
      e.PS = some v → 200 ≤ v →
      (lstmEntryPredictWeather e).PS = v ∧ (lstmEntryHandleClassify e).PS = v) ∧
    (∀ e : HistoricalWeatherEntry, truthyQ e.pressure = false → truthyQ e.PS = false →
      (lstmEntryPredictWeather e).PS = 1013 ∧ (lstmEntryHandleClassify e).PS = 1013) := by
  refine ⟨?_, ?_, ?_, ?_⟩
  · intro e v hp hv
    constructor
    · simp [lstmEntryPredictWeather, hp, jsOrQ, hv]
    · simp [lstmEntryHandleClassify, hp, truthyQ, hv]
  · intro e v hp hPS hv hlt
    have hmid : jsOrQ (psKpaFix e.PS) 1013 = v * 10 := by
      simp [hPS, psKpaFix, hv, hlt, jsOrQ, mul_eq_zero]
    constructor
    · simp only [lstmEntryPredictWeather]
      rw [jsOrQ_eq_of_not_truthy _ _ hp, hmid]
    · simp [lstmEntryHandleClassify, hp, hPS, jsOrQ, hv]
  · intro e v hp hPS hge
    have hv : v ≠ 0 := by positivity
    have hnlt : ¬ v < 200 := not_lt.mpr hge
    have hmid : jsOrQ (psKpaFix e.PS) 1013 = v := by
      simp [hPS, psKpaFix, hv, hnlt, jsOrQ]
    constructor
    · simp only [lstmEntryPredictWeather]
      rw [jsOrQ_eq_of_not_truthy _ _ hp, hmid]
    · simp [lstmEntryHandleClassify, hp, hPS, jsOrQ, hv]
  · intro e hp hPS
    have hmid : jsOrQ (psKpaFix e.PS) 1013 = 1013 := by
      cases hps : e.PS with
      | none => rfl
      | some v =>
        rw [hps] at hPS
        simp [psKpaFix, truthyQ_some_eq_zero hPS, jsOrQ]
    constructor
    · simp only [lstmEntryPredictWeather]
      rw [jsOrQ_eq_of_not_truthy _ _ hp, hmid]
    · simp [lstmEntryHandleClassify, hp, jsOrQ_eq_of_not_truthy _ _ hPS]

/-- C2 witness: the amended rules evaluated at concrete records (legacy
pressure 1013 at both sites; flat PS 101.3 at both sites). -/
theorem c2_witness :
    (lstmEntryPredictWeather { emptyEntry with pressure := some 1013 }).PS = 1013 ∧
    (lstmEntryHandleClassify { emptyEntry with pressure := some 1013 }).PS = 1013 * 10 ∧
    (lstmEntryPredictWeather { emptyEntry with PS := some (101.3 : ℚ) }).PS
      = (101.3 : ℚ) * 10 ∧
    (lstmEntryHandleClassify { emptyEntry with PS := some (101.3 : ℚ) }).PS = (101.3 : ℚ) := by
  have h1 := c2_pressure_site_rules.1 { emptyEntry with pressure := some 1013 } 1013
    rfl (by norm_num)
  have h2 := c2_pressure_site_rules.2.1 { emptyEntry with PS := some (101.3 : ℚ) } (101.3 : ℚ)
    rfl rfl (by norm_num) (by norm_num)
  exact ⟨h1.1, h1.2, h2.1, h2.2⟩

/-- C3 counterexample: on a record carrying both shapes (legacy
`temperature.temp = 10` and flat `T2M = 20`) both normalizer call sites
output 10 — the legacy nested value, not the flat key the claim says is read
first. -/
theorem c3_counterexample :
    (lstmEntryPredictWeather
      { emptyEntry with temperature_temp := some 10, T2M := some 20 }).T2M = 10 ∧
    (lstmEntryHandleClassify
      { emptyEntry with temperature_temp := some 10, T2M := some 20 }).T2M = 10 ∧
    (10 : ℚ) ≠ 20 := by
  refine ⟨?_, ?_, by norm_num⟩
  · norm_num [lstmEntryPredictWeather, emptyEntry, jsOrQ]
  · norm_num [lstmEntryHandleClassify, emptyEntry, jsOrQ]

/-- C3 amended: the precedence is the reverse of the claim.  For each of the
dual-shape features, both call sites read the legacy nested value first and
fall back to the flat key only when the legacy value is absent or zero (and
to the fixed default when both are); a truthy legacy `pressure` likewise
pre-empts the flat `PS` at both sites (used unchanged at the `predictWeather`
site, ×10 at the `handleClassify` site). -/
theorem c3_legacy_precedence (e : HistoricalWeatherEntry) :
    (truthyQ e.temperature_temp = true →
      (lstmEntryPredictWeather e).T2M = e.temperature_temp.getD 0 ∧
      (lstmEntryHandleClassify e).T2M = e.temperature_temp.getD 0) ∧
    (truthyQ e.temperature_temp = false →
      (lstmEntryPredictWeather e).T2M = jsOrQ e.T2M 25 ∧
      (lstmEntryHandleClassify e).T2M = jsOrQ e.T2M 25) ∧
    (truthyQ e.temperature_humidity = true →
      (lstmEntryPredictWeather e).RH2M = e.temperature_humidity.getD 0 ∧
      (lstmEntryHandleClassify e).RH2M = e.temperature_humidity.getD 0) ∧
    (truthyQ e.temperature_humidity = false →
      (lstmEntryPredictWeather e).RH2M = jsOrQ e.RH2M 75 ∧
      (lstmEntryHandleClassify e).RH2M = jsOrQ e.RH2M 75) ∧
    (truthyQ e.wind_speed = true →
      (lstmEntryPredictWeather e).WS10M = e.wind_speed.getD 0 ∧
      (lstmEntryHandleClassify e).WS10M = e.wind_speed.getD 0) ∧
    (truthyQ e.wind_speed = false →
      (lstmEntryPredictWeather e).WS10M = jsOrQ e.WS10M 2 ∧
      (lstmEntryHandleClassify e).WS10M = jsOrQ e.WS10M 2) ∧
    (truthyQ e.wind_direction = true →
      (lstmEntryPredictWeather e).WD10M = e.wind_direction.getD 0 ∧
      (lstmEntryHandleClassify e).WD10M = e.wind_direction.getD 0) ∧
    (truthyQ e.wind_direction = false →
      (lstmEntryPredictWeather e).WD10M = jsOrQ e.WD10M 180 ∧
      (lstmEntryHandleClassify e).WD10M = jsOrQ e.WD10M 180) ∧
    (truthyQ e.pressure = true →
      (lstmEntryPredictWeather e).PS = e.pressure.getD 0 ∧
      (lstmEntryHandleClassify e).PS = e.pressure.getD 0 * 10) := by
  refine ⟨?_, ?_, ?_, ?_, ?_, ?_, ?_, ?_, ?_⟩ <;> intro h
  all_goals constructor
  all_goals
    simp only [lstmEntryPredictWeather, lstmEntryHandleClassify]
  all_goals
    first
      | rw [jsOrQ_eq_getD_of_truthy _ _ h]
      | rw [jsOrQ_eq_of_not_truthy _ _ h]
      | simp [h]

/-- C3 witness: the amended precedence evaluated on a record carrying both
shapes for every feature. -/
theorem c3_witness :
    (lstmEntryPredictWeather entryBothShapes).T2M = 11 ∧
    (lstmEntryHandleClassify entryBothShapes).RH2M = 60 ∧
    (lstmEntryPredictWeather entryBothShapes).WS10M = 5 ∧
    (lstmEntryHandleClassify entryBothShapes).WD10M = 90 ∧
    (lstmEntryPredictWeather entryBothShapes).PS = 950 := by
  have h := c3_legacy_precedence entryBothShapes
  exact ⟨(h.1 (by decide)).1, (h.2.2.1 (by decide)).2, (h.2.2.2.2.1 (by decide)).1,
    (h.2.2.2.2.2.2.1 (by decide)).2, (h.2.2.2.2.2.2.2.2 (by decide)).1⟩

/-- C5 counterexample: on a record where min/max are absent from both shapes
but the (flat) current temperature is 30, the derived min/max are the fixed
defaults 22 and 30 — not `30 − 3 = 27` and `30 + 3 = 33` as the claim says;
and on a record with a truthy legacy temperature 20 and a present flat
`T2M_MIN = 10`, the present value is overridden by `20 − 3 = 17` rather than
used as given. -/
theorem c5_counterexample :
    (lstmEntryPredictWeather { emptyEntry with T2M := some 30 }).T2M = 30 ∧
    (lstmEntryPredictWeather { emptyEntry with T2M := some 30 }).T2M_MIN = 22 ∧
    (22 : ℚ) ≠ 30 - 3 ∧
    (lstmEntryPredictWeather { emptyEntry with T2M := some 30 }).T2M_MAX = 30 ∧
    (30 : ℚ) ≠ 30 + 3 ∧
    (lstmEntryPredictWeather
      { emptyEntry with temperature_temp := some 20, T2M_MIN := some 10 }).T2M_MIN = 17 ∧
    (17 : ℚ) ≠ 10 := by
  refine ⟨?_, ?_, by norm_num, ?_, by norm_num, ?_, by norm_num⟩ <;>
    norm_num [lstmEntryPredictWeather, emptyEntry, truthyQ, jsOrQ]

/-- C5 amended: at both call sites the `± 3 °C` derivation is keyed on the
legacy current temperature alone.  When `temperature.temp` is truthy, min/max
are always `temp ∓ 3`, overriding any flat `T2M_MIN`/`T2M_MAX` present in the
record; when it is absent or zero, the flat values are used when truthy and
the fixed defaults 22 and 30 otherwise — min/max are never derived from the
flat `T2M`. -/
theorem c5_minmax_derivation (e : HistoricalWeatherEntry) :
    (truthyQ e.temperature_temp = true →
      (lstmEntryPredictWeather e).T2M_MIN = e.temperature_temp.getD 0 - 3 ∧
      (lstmEntryPredictWeather e).T2M_MAX = e.temperature_temp.getD 0 + 3 ∧
      (lstmEntryHandleClassify e).T2M_MIN = e.temperature_temp.getD 0 - 3 ∧
      (lstmEntryHandleClassify e).T2M_MAX = e.temperature_temp.getD 0 + 3) ∧
    (truthyQ e.temperature_temp = false →
      (lstmEntryPredictWeather e).T2M_MIN = jsOrQ e.T2M_MIN 22 ∧
      (lstmEntryPredictWeather e).T2M_MAX = jsOrQ e.T2M_MAX 30 ∧
      (lstmEntryHandleClassify e).T2M_MIN = jsOrQ e.T2M_MIN 22 ∧
      (lstmEntryHandleClassify e).T2M_MAX = jsOrQ e.T2M_MAX 30) := by
  constructor <;> intro h <;>
    simp [lstmEntryPredictWeather, lstmEntryHandleClassify, h]

/-- C5 witness: the amended derivation evaluated at a record with a truthy
legacy temperature and present flat min/max, and at a flat-only record. -/
theorem c5_witness :
    (lstmEntryPredictWeather entryLegacyTempWithMinMax).T2M_MIN = 20 - 3 ∧
    (lstmEntryHandleClassify entryLegacyTempWithMinMax).T2M_MAX = 20 + 3 ∧
    (lstmEntryPredictWeather { emptyEntry with T2M := some 30 }).T2M_MIN = jsOrQ none 22 ∧
    (lstmEntryHandleClassify { emptyEntry with T2M := some 30 }).T2M_MAX = jsOrQ none 30 := by
  have h1 := (c5_minmax_derivation entryLegacyTempWithMinMax).1 (by decide)
  have h2 := (c5_minmax_derivation { emptyEntry with T2M := some 30 }).2 (by decide)
  exact ⟨h1.1, h1.2.2.2, h2.1, h2.2.2.2⟩

/-- C10: both normalizer call sites select every field with JavaScript `||`,
so a field whose numeric value is exactly 0 is treated as absent: erasing
every present-but-zero field of a record does not change either normalizer's
output, a flat `WD10M = 0` (with no legacy wind) normalizes to the default
180, a calm `WS10M = 0` normalizes to 2, and a legacy current temperature of
0 °C is skipped in favour of the flat `T2M` (or the default 25 when that is
also absent). -/
theorem c10_zero_treated_as_absent :
    (∀ e : HistoricalWeatherEntry,
      lstmEntryPredictWeather (zeroErase e) = lstmEntryPredictWeather e ∧
      lstmEntryHandleClassify (zeroErase e) = lstmEntryHandleClassify e) ∧
    (lstmEntryPredictWeather { emptyEntry with WD10M := some 0 }).WD10M = 180 ∧
    (lstmEntryHandleClassify { emptyEntry with WD10M := some 0 }).WD10M = 180 ∧
    (lstmEntryPredictWeather { emptyEntry with WS10M := some 0 }).WS10M = 2 ∧
    (lstmEntryHandleClassify { emptyEntry with WS10M := some 0 }).WS10M = 2 ∧
    (lstmEntryPredictWeather
      { emptyEntry with temperature_temp := some 0, T2M := some 28 }).T2M = 28 ∧
    (lstmEntryHandleClassify
      { emptyEntry with temperature_temp := some 0, T2M := some 28 }).T2M = 28 ∧
    (lstmEntryPredictWeather { emptyEntry with temperature_temp := some 0 }).T2M = 25 ∧
    (lstmEntryHandleClassify { emptyEntry with temperature_temp := some 0 }).T2M = 25 := by
  refine ⟨fun e => ⟨?_, ?_⟩, ?_, ?_, ?_, ?_, ?_, ?_, ?_, ?_⟩
  · simp [lstmEntryPredictWeather, zeroErase, jsOrQ_zeroEraseOpt, truthyQ_zeroEraseOpt,
      getD_zeroEraseOpt, jsOrQ_psKpaFix_zeroEraseOpt]
  · simp [lstmEntryHandleClassify, zeroErase, jsOrQ_zeroEraseOpt, truthyQ_zeroEraseOpt,
      getD_zeroEraseOpt]
  all_goals
    norm_num [lstmEntryPredictWeather, lstmEntryHandleClassify, emptyEntry, truthyQ, jsOrQ]

/-! ## Claims about the orchestration runs -/

theorem classifyWildfireArea_ok_iff {out : FetchOutcome ClassificationResponse}
    {d : ClassificationResponse} :
    classifyWildfireArea out = Except.ok d ↔ out = FetchOutcome.success d := by
  cases out <;> simp [classifyWildfireArea]

theorem getHistoricalWeather_ok_iff {out : FetchOutcome HistoricalWeatherData}
    {d : HistoricalWeatherData} :
    getHistoricalWeather out = Except.ok d ↔ out = FetchOutcome.success d := by
  cases out <;> simp [getHistoricalWeather]

theorem predictLSTMTemperature_ok_iff {out : FetchOutcome LSTMPredictionResponse}
    {d : LSTMPredictionResponse} :
    predictLSTMTemperature out = Except.ok d ↔ out = FetchOutcome.success d := by
  cases out <;> simp [predictLSTMTemperature]

theorem handleClassifyRun_predict_mem {mr zr : Bool} {loc : Option MapLocation}
    {env : ClassifyRunEnv} {d : List LSTMInputEntry} {ct : Option ℚ}
    (hmem : ApiCall.predict d ct ∈ (handleClassifyRun mr zr loc env).calls) :
    d.length = 14 ∧ ∃ hd, env.hist = FetchOutcome.success hd ∧
      d = hd.historical_data.map lstmEntryHandleClassify := by
  obtain ⟨cap, ws, cnn, hist, lstm⟩ := env
  cases loc <;> cases cnn <;> cases hist <;> cases lstm <;>
    unfold handleClassifyRun at hmem <;>
    simp only [classifyWildfireArea, getHistoricalWeather, predictLSTMTemperature] at hmem <;>
    (try split_ifs at hmem) <;>
    simp_all

theorem predictWeatherRun_predict_mem {cw : Option CurrentWeatherData}
    {loc : Option MapLocation} {env : PredictRunEnv} {d : List LSTMInputEntry}
    {ct : Option ℚ}
    (hmem : ApiCall.predict d ct ∈ (predictWeatherRun cw loc env).calls) :
    d.length = 14 ∧ ∃ hd, env.hist = FetchOutcome.success hd ∧
      d = hd.historical_data.map lstmEntryPredictWeather := by
  obtain ⟨hist, lstm⟩ := env
  cases cw <;> cases loc <;> cases hist <;> cases lstm <;>
    unfold predictWeatherRun at hmem <;>
    simp only [getHistoricalWeather, predictLSTMTemperature] at hmem <;>
    (try split_ifs at hmem) <;>
    simp_all

/-- C4: in both runs, every `data` array handed to the
forecast endpoint has exactly 14 entries and is exactly the map of the fetched
records (never padded or truncated); and when the fetched records do not
number 14, the run fails with the incomplete-history error and no forecast
call is issued. -/
theorem c4_incomplete_history :
    (∀ mr zr loc env d ct, ApiCall.predict d ct ∈ (handleClassifyRun mr zr loc env).calls →
       d.length = 14 ∧ ∃ hd, env.hist = FetchOutcome.success hd ∧
         d = hd.historical_data.map lstmEntryHandleClassify) ∧
    (∀ cw loc env d ct, ApiCall.predict d ct ∈ (predictWeatherRun cw loc env).calls →
       d.length = 14 ∧ ∃ hd, env.hist = FetchOutcome.success hd ∧
         d = hd.historical_data.map lstmEntryPredictWeather) ∧
    (∀ l env c hd, env.captureOk = true → 200 ≤ env.weatherStatus → env.weatherStatus < 300 →
       env.cnn = FetchOutcome.success c → env.hist = FetchOutcome.success hd →
       hd.historical_data.length ≠ 14 →
       (handleClassifyRun true true (some l) env).result =
         Except.error ("Expected 14 days of historical data, got "
           ++ toString hd.historical_data.length) ∧
       ∀ d ct, ApiCall.predict d ct ∉ (handleClassifyRun true true (some l) env).calls) ∧
    (∀ cw l env hd, env.hist = FetchOutcome.success hd → hd.historical_data.length ≠ 14 →
       (predictWeatherRun (some cw) (some l) env).result =
         Except.error ("Expected 14 days of historical data, got "
           ++ toString hd.historical_data.length) ∧
       ∀ d ct, ApiCall.predict d ct ∉ (predictWeatherRun (some cw) (some l) env).calls) := by
  refine ⟨?_, ?_, ?_, ?_⟩
  · intro mr zr loc env d ct hmem
    exact handleClassifyRun_predict_mem hmem
  · intro cw loc env d ct hmem
    exact predictWeatherRun_predict_mem hmem
  · intro l env c hd hcap hw1 hw2 hcnn hhist hlen
    have h : handleClassifyRun true true (some l) env =
        ⟨[.currentWeather, .classify, .historicalWeather 14],
         Except.error ("Expected 14 days of historical data, got "
           ++ toString hd.historical_data.length)⟩ := by
      simp [handleClassifyRun, hcap, hw1, hw2, hcnn, hhist, classifyWildfireArea,
        getHistoricalWeather, hlen]
    rw [h]
    exact ⟨rfl, by intro d ct; simp⟩
  · intro cw l env hd hhist hlen
    have h : predictWeatherRun (some cw) (some l) env =
        ⟨[.historicalWeather 14],
         Except.error ("Expected 14 days of historical data, got "
           ++ toString hd.historical_data.length)⟩ := by
      simp [predictWeatherRun, hhist, getHistoricalWeather, hlen]
    rw [h]
    exact ⟨rfl, by intro d ct; simp⟩

/-- C4 witness: a run over a 9-record historical response fails with the
incomplete-history error and issues no forecast call. -/
theorem c4_witness :
    (handleClassifyRun true true (some loc0) env9).result =
      Except.error ("Expected 14 days of historical data, got " ++ toString (9 : Nat)) ∧
    ∀ d ct, ApiCall.predict d ct ∉ (handleClassifyRun true true (some loc0) env9).calls := by
  have h := c4_incomplete_history.2.2.1 loc0 env9 cnn0 hist9 rfl
    (by simp [env9]) (by simp [env9]) rfl rfl (by simp [hist9])
  refine ⟨?_, h.2⟩
  have h9 : hist9.historical_data.length = 9 := by simp [hist9]
  rw [h.1, h9]

/-- C1 counterexample: two fully successful runs over the shared result slot,
where R2 (environment `envR2`) commits first and the earlier-started, slower
R1 (environment `envR1`) commits second.  The slot ends up holding R1's
combined result, not R2's: nothing in the code identifies R1's late
completion as stale, so it overwrites R2's committed result. -/
theorem c1_counterexample :
    commitClassifyRun
        (commitClassifyRun none (handleClassifyRun true true (some loc0) envR2))
        (handleClassifyRun true true (some loc0) envR1)
      = some ⟨cnn0, (33.4 : ℚ)⟩ ∧
    (some ⟨cnn0, (33.4 : ℚ)⟩ : Option CombinedResult)
      ≠ some ⟨cnnAlt, (30 : ℚ)⟩ := by
  constructor
  · rfl
  · simp [cnn0, cnnAlt]

/-- C1 amended: the result slot is last-committer-wins with no run-scoped
staleness check: a run that completes with a result commits it
unconditionally, so whichever run commits last determines the stored
`AnalysisResult`, regardless of which run started or finished first; in the
claim's scenario the slow run R1's late commit overwrites R2's committed
result. -/
theorem c1_last_writer_wins (slot : Option CombinedResult)
    (t1 t2 : ClassifyRunTrace) (r1 : CombinedResult)
    (h1 : t1.result = Except.ok r1) :
    commitClassifyRun (commitClassifyRun slot t2) t1 = some r1 := by
  simp [commitClassifyRun, h1, setClassificationResult]

/-- C1 witness: the last-writer-wins law applied to the two concrete runs,
with R1 committing after R2. -/
theorem c1_witness :
    commitClassifyRun
        (commitClassifyRun none (handleClassifyRun true true (some loc0) envR2))
        (handleClassifyRun true true (some loc0) envR1)
      = some ⟨cnn0, (33.4 : ℚ)⟩ :=
  c1_last_writer_wins none (handleClassifyRun true true (some loc0) envR1)
    (handleClassifyRun true true (some loc0) envR2) ⟨cnn0, (33.4 : ℚ)⟩ rfl

/-- C6 counterexample: invoked with no GeoPoint selected while the map is not
ready, `handleClassify` reports the "Map Not Ready" alert, not the
no-location-selected failure the claim requires for every invocation without
a selected GeoPoint (it still issues no network call). -/
theorem c6_counterexample :
    handleClassifyRun false false none envR1 =
      ⟨[], Except.error "Map Not Ready"⟩ ∧
    "Map Not Ready" ≠ "No Location Selected" := by
  constructor
  · rfl
  · decide

/-- C6 amended: when the map and its zoom function are ready and no GeoPoint
is selected, `handleClassify` immediately reports the no-location-selected
failure, issues no network call, and leaves the result slot untouched; when
the map is not ready, the map-not-ready check fires first instead (also with
no network call and no store change). -/
theorem c6_no_location_precheck (env : ClassifyRunEnv) (slot : Option CombinedResult) :
    handleClassifyRun true true none env = ⟨[], Except.error "No Location Selected"⟩ ∧
    commitClassifyRun slot (handleClassifyRun true true none env) = slot ∧
    (∀ mr zr : Bool, ¬ (mr = true ∧ zr = true) →
      handleClassifyRun mr zr none env = ⟨[], Except.error "Map Not Ready"⟩ ∧
      commitClassifyRun slot (handleClassifyRun mr zr none env) = slot) := by
  refine ⟨rfl, rfl, ?_⟩
  intro mr zr h
  cases mr <;> cases zr <;> simp_all [handleClassifyRun, commitClassifyRun]

/-- C6 witness: the no-location precheck evaluated at a concrete environment
and a concrete occupied slot, including the not-ready case. -/
theorem c6_witness :
    handleClassifyRun true true none envR1 =
      ⟨[], Except.error "No Location Selected"⟩ ∧
    commitClassifyRun (some ⟨cnn0, 33.4⟩) (handleClassifyRun true true none envR1)
      = some ⟨cnn0, 33.4⟩ ∧
    handleClassifyRun false true none envR1 = ⟨[], Except.error "Map Not Ready"⟩ := by
  have h := c6_no_location_precheck envR1 (some ⟨cnn0, 33.4⟩)
  exact ⟨h.1, h.2.1, (h.2.2 false true (by simp)).1⟩

/-! ## Claims about the gateway retry and error policy -/

theorem checkHealthAux_fetchCount_le (att : Nat → HealthAttempt) :
    ∀ k i, (checkHealthAux att (i + k) i).fetchCount ≤ k := by
  intro k
  induction k with
  | zero =>
    intro i
    rw [checkHealthAux]
    simp
  | succ k ih =>
    intro i
    rw [checkHealthAux]
    have hi : i < i + (k + 1) := by omega
    rw [dif_pos hi]
    cases att i with
    | success d =>
      show 1 ≤ k + 1
      omega
    | abortFail =>
      by_cases hk : k = 0
      · rw [if_pos (by omega)]
        show 1 ≤ k + 1
        omega
      · rw [if_neg (by omega)]
        have h2 := ih (i + 1)
        rw [show i + 1 + k = i + (k + 1) by omega] at h2
        show (checkHealthAux att (i + (k + 1)) (i + 1)).fetchCount + 1 ≤ k + 1
        omega
    | httpFail n =>
      by_cases hk : k = 0
      · rw [if_pos (by omega)]
        show 1 ≤ k + 1
        omega
      · rw [if_neg (by omega)]
        have h2 := ih (i + 1)
        rw [show i + 1 + k = i + (k + 1) by omega] at h2
        show (checkHealthAux att (i + (k + 1)) (i + 1)).fetchCount + 1 ≤ k + 1
        omega
    | otherFail =>
      by_cases hk : k = 0
      · rw [if_pos (by omega)]
        show 1 ≤ k + 1
        omega
      · rw [if_neg (by omega)]
        have h2 := ih (i + 1)
        rw [show i + 1 + k = i + (k + 1) by omega] at h2
        show (checkHealthAux att (i + (k + 1)) (i + 1)).fetchCount + 1 ≤ k + 1
        omega

/-- C7 counterexample: when all three attempts fail, `checkHealth` sleeps
exactly 1s and then 2s between the attempts — the claimed third 3s wait
never happens, because the third failure surfaces the error immediately. -/
theorem c7_counterexample :
    (checkHealth fun _ => HealthAttempt.abortFail).delaysMs = [1000, 2000] ∧
    ([1000, 2000] : List Nat) ≠ [1000, 2000, 3000] ∧
    3000 ∉ (checkHealth fun _ => HealthAttempt.abortFail).delaysMs := by
  refine ⟨?_, by decide, ?_⟩ <;> simp [checkHealth, checkHealthAux]

/-- C7 amended: `checkHealth` issues at most 3 fetch attempts, stopping at
the first success; between consecutive failed attempts it waits
`1000 * (attempt index + 1)` ms, i.e. 1s then 2s (never 3s, since the third
failure surfaces immediately); on three failures it raises the generic
connect-failure message; and it is the only retrying operation — the other
gateway operations surface every non-success fetch outcome as an error at
once. -/
theorem c7_health_retry :
    (∀ att, (checkHealth att).fetchCount ≤ 3) ∧
    (∀ att, attemptFails (att 0) = true → attemptFails (att 1) = true →
      attemptFails (att 2) = true →
      checkHealth att =
        ⟨Except.error "Unable to connect to the prediction service", [1000, 2000], 3⟩) ∧
    (∀ att d, att 0 = HealthAttempt.success d → checkHealth att = ⟨Except.ok d, [], 1⟩) ∧
    (∀ m : String,
      classifyWildfireArea (FetchOutcome.otherError m) = Except.error m ∧
      getCurrentWeather (FetchOutcome.otherError m) = Except.error m ∧
      getHistoricalWeather (FetchOutcome.otherError m) = Except.error m ∧
      predictLSTMTemperature (FetchOutcome.otherError m) = Except.error m) ∧
    (∀ out : FetchOutcome ClassificationResponse,
      (∀ a, out ≠ FetchOutcome.success a) → ∃ m, classifyWildfireArea out = Except.error m) := by
  refine ⟨?_, ?_, ?_, ?_, ?_⟩
  · intro att
    exact checkHealthAux_fetchCount_le att 3 0
  · intro att h0 h1 h2
    cases a0 : att 0 <;> cases a1 : att 1 <;> cases a2 : att 2 <;>
      simp_all [checkHealth, checkHealthAux, attemptFails]
  · intro att d h0
    simp [checkHealth, checkHealthAux, h0]
  · intro m
    exact ⟨rfl, rfl, rfl, rfl⟩
  · intro out h
    cases out with
    | success a => exact absurd rfl (h a)
    | httpError status body => exact ⟨_, rfl⟩
    | abortError => exact ⟨_, rfl⟩
    | otherError m => exact ⟨_, rfl⟩

/-- C7 witness: the retry law evaluated at an all-failing attempt stream and
at an immediately-successful one. -/
theorem c7_witness :
    checkHealth (fun _ => HealthAttempt.abortFail) =
      ⟨Except.error "Unable to connect to the prediction service", [1000, 2000], 3⟩ ∧
    checkHealth (fun _ => HealthAttempt.success ⟨"healthy", "flame-prophet", "1.0"⟩) =
      ⟨Except.ok ⟨"healthy", "flame-prophet", "1.0"⟩, [], 1⟩ := by
  constructor
  · exact c7_health_retry.2.1 (fun _ => HealthAttempt.abortFail) rfl rfl rfl
  · exact c7_health_retry.2.2.1 (fun _ => HealthAttempt.success ⟨"healthy", "flame-prophet", "1.0"⟩)
      ⟨"healthy", "flame-prophet", "1.0"⟩ rfl

/-- C8 counterexample: on HTTP 500 with an absent or malformed body, the
raised message is the substitute-body message "An unexpected error occurred",
not the generic "HTTP error! status: 500" the claim requires for that case. -/
theorem c8_counterexample :
    classifyWildfireArea (FetchOutcome.httpError 500 none)
      = Except.error "An unexpected error occurred" ∧
    "An unexpected error occurred" ≠ "HTTP error! status: " ++ toString (500 : Nat) := by
  constructor
  · rfl
  · decide

/-- C8 amended: on a non-success status every gateway operation raises
`parseErrorBody`: the parsed body's `message` is preferred, then its `error`;
the "HTTP error! status: N" fallback fires only when a body parses but both
fields are absent or empty; an absent or malformed body is replaced by the
fixed substitute `{error: "Unknown error", message: "An unexpected error
occurred"}`, so that case raises "An unexpected error occurred". -/
theorem c8_error_body :
    (∀ status : Nat, ∀ eo : Option String, ∀ m : String, m ≠ "" →
      parseErrorBody status (some ⟨eo, some m⟩) = m) ∧
    (∀ status : Nat, ∀ er : String, er ≠ "" →
      parseErrorBody status (some ⟨some er, none⟩) = er ∧
      parseErrorBody status (some ⟨some er, some ""⟩) = er) ∧
    (∀ status : Nat,
      parseErrorBody status (some ⟨none, none⟩)
        = "HTTP error! status: " ++ toString status ∧
      parseErrorBody status (some ⟨some "", some ""⟩)
        = "HTTP error! status: " ++ toString status) ∧
    (∀ status : Nat, parseErrorBody status none = "An unexpected error occurred") ∧
    (∀ status : Nat, ∀ body : Option ApiErrorBody,
      classifyWildfireArea (FetchOutcome.httpError status body)
        = Except.error (parseErrorBody status body) ∧
      getCurrentWeather (FetchOutcome.httpError status body)
        = Except.error (parseErrorBody status body) ∧
      getHistoricalWeather (FetchOutcome.httpError status body)
        = Except.error (parseErrorBody status body) ∧
      predictLSTMTemperature (FetchOutcome.httpError status body)
        = Except.error (parseErrorBody status body) ∧
      getLSTMHealth (FetchOutcome.httpError status body)
        = Except.error (parseErrorBody status body)) := by
  refine ⟨?_, ?_, ?_, ?_, ?_⟩
  · intro status eo m hm
    simp [parseErrorBody, jsOrS, hm]
  · intro status er he
    constructor <;> simp [parseErrorBody, jsOrS, he]
  · intro status
    constructor <;> simp [parseErrorBody, jsOrS]
  · intro status
    simp [parseErrorBody, jsOrS]
  · intro status body
    exact ⟨rfl, rfl, rfl, rfl, rfl⟩

/-- C8 witness: the error-body policy evaluated at concrete bodies. -/
theorem c8_witness :
    parseErrorBody 500 (some ⟨some "Internal", some "Model crashed"⟩) = "Model crashed" ∧
    parseErrorBody 404 (some ⟨some "Not Found", none⟩) = "Not Found" ∧
    parseErrorBody 503 (some ⟨none, none⟩) = "HTTP error! status: " ++ toString (503 : Nat) := by
  refine ⟨c8_error_body.1 500 (some "Internal") "Model crashed" (by decide),
    (c8_error_body.2.1 404 "Not Found" (by decide)).1,
    (c8_error_body.2.2.1 503).1⟩

/-- C9 counterexample: the retrying health check is a gateway operation with
a 5s deadline, yet when every one of its attempts is aborted by that
deadline it surfaces the generic "Unable to connect to the prediction
service" — not a distinguished "took too long" timeout message — so the
claim does not hold for every gateway call aborted by its own deadline. -/
theorem c9_counterexample :
    (checkHealth fun _ => HealthAttempt.abortFail).result
      = Except.error "Unable to connect to the prediction service" ∧
    "Unable to connect to the prediction service"
      ≠ "Request timeout - LSTM health check took too long (>5s)" ∧
    "Unable to connect to the prediction service"
      ≠ "Request timeout - classification took too long (>30s)" := by
  refine ⟨?_, by decide, by decide⟩
  simp [checkHealth, checkHealthAux]

/-- C9 amended: each single-shot gateway operation (classification, forecast,
historical weather, current weather, and the LSTM health probe) raises its
own fixed "took too long" timeout error on abort, and that error differs from
the one raised when the server returns HTTP 500 within budget (shown against
both an absent body and a typical parsed body); the retrying `checkHealth` is
the exception — even when every attempt aborts at its 5s deadline it
surfaces the generic connect-failure message. -/
theorem c9_timeout_distinguished :
    classifyWildfireArea FetchOutcome.abortError
      = Except.error "Request timeout - classification took too long (>30s)" ∧
    predictLSTMTemperature FetchOutcome.abortError
      = Except.error "Request timeout - LSTM prediction took too long (>30s)" ∧
    getHistoricalWeather FetchOutcome.abortError
      = Except.error "Request timeout - historical weather API took too long (>15s)" ∧
    getCurrentWeather FetchOutcome.abortError
      = Except.error "Request timeout - weather API took too long (>10s)" ∧
    getLSTMHealth FetchOutcome.abortError
      = Except.error "Request timeout - LSTM health check took too long (>5s)" ∧
    classifyWildfireArea (FetchOutcome.httpError 500 none)
      ≠ classifyWildfireArea FetchOutcome.abortError ∧
    classifyWildfireArea (FetchOutcome.httpError 500 (some ⟨some "Internal Server Error",
        some "Internal Server Error"⟩))
      ≠ classifyWildfireArea FetchOutcome.abortError ∧
    predictLSTMTemperature (FetchOutcome.httpError 500 none)
      ≠ predictLSTMTemperature FetchOutcome.abortError ∧
    getHistoricalWeather (FetchOutcome.httpError 500 none)
      ≠ getHistoricalWeather FetchOutcome.abortError ∧
    getCurrentWeather (FetchOutcome.httpError 500 none)
      ≠ getCurrentWeather FetchOutcome.abortError ∧
    getLSTMHealth (FetchOutcome.httpError 500 none)
      ≠ getLSTMHealth FetchOutcome.abortError ∧
    (checkHealth fun _ => HealthAttempt.abortFail).result
      = Except.error "Unable to connect to the prediction service" := by
  refine ⟨rfl, rfl, rfl, rfl, rfl, ?_, ?_, ?_, ?_, ?_, ?_, ?_⟩
  · simp [classifyWildfireArea, parseErrorBody, jsOrS]
  · simp [classifyWildfireArea, parseErrorBody, jsOrS]
  · simp [predictLSTMTemperature, parseErrorBody, jsOrS]
  · simp [getHistoricalWeather, parseErrorBody, jsOrS]
  · simp [getCurrentWeather, parseErrorBody, jsOrS]
  · simp [getLSTMHealth, parseErrorBody, jsOrS]
  · simp [checkHealth, checkHealthAux]
